import Mathlib

/-!
Shallow embedding of the MaixCam + WonderEcho garbage-classification assistant
(files `wondecho_voice_assistant_asr.py` and `wondecho_voice_assistant.py`).

Modelling conventions:
- The I2C bus is modelled as a trace of issued operations; whether a given
  operation raises `OSError` is an external boolean input (`busOk`).
- `time.time()` values and keyword probabilities (Python floats) are modelled
  as rationals; the properties proved are order-theoretic and do not depend on
  rounding.
- Python dictionaries with string keys are modelled as association lists.
- Code that can raise an exception which the repository does not catch is
  modelled with `Except`, so that an uncaught exception shows up as an
  `Except.error` result that terminates the enclosing loop.
-/

namespace Wondecho

/-! Actuator protocol driver: class `ASRModule`
    (`wondecho_voice_assistant_asr.py` lines 87-130, identical in
    `wondecho_voice_assistant.py` lines 77-120). -/

def ASR_RESULT_ADDR : Nat := 0x64

def ASR_SPEAK_ADDR : Nat := 0x6E

def ASR_CMDMAND : Nat := 0x00

def ASR_ANNOUNCER : Nat := 0xFF

/-- One operation issued on the register-addressed byte bus. -/
inductive BusOp where
  | writeBlock (address reg : Nat) (payload : List Nat)
  | writeByte (address reg value : Nat)
  | readBlock (address reg len : Nat)
deriving DecidableEq, Repr

/-- State of an `ASRModule` instance: its I2C address, the reusable two-byte
`_send` buffer, and the trace of bus operations issued so far. -/
structure ASRState where
  address : Nat
  send : List Nat
  trace : List BusOp
deriving DecidableEq, Repr

/-- Method `ASRModule._write_block` (lines 99-105): issues one
`write_i2c_block_data` transaction; returns `False` when the bus raises
`OSError` (modelled by the external input `busOk`). The operation is appended
to the trace in either case, since the transaction is attempted. -/
def asrWriteBlock (st : ASRState) (reg : Nat) (payload : List Nat) (busOk : Bool) :
    Bool × ASRState :=
  (busOk, { st with trace := st.trace ++ [BusOp.writeBlock st.address reg payload] })

/-- Method `ASRModule.speak` (lines 125-130): rejects any command type other
than `ASR_CMDMAND` (0x00) and `ASR_ANNOUNCER` (0xFF) before touching the send
buffer; otherwise fills `_send = [cmd, phrase_id]` and writes it as one block
to register 0x6E. -/
def speak (st : ASRState) (cmd phraseId : Nat) (busOk : Bool) : Bool × ASRState :=
  if cmd = ASR_CMDMAND ∨ cmd = ASR_ANNOUNCER then
    let st1 := { st with send := [cmd, phraseId] }
    asrWriteBlock st1 ASR_SPEAK_ADDR st1.send busOk
  else
    (false, st)

/-! Keyword detection producer: class `KeywordSpotter`
    (`wondecho_voice_assistant_asr.py` lines 229-338). -/

/-- Capacity of the bounded event channel: `Queue(maxsize=10)` (line 242). -/
def QUEUE_MAXSIZE : Nat := 10

/-- Semantics of `Queue.put_nowait` wrapped in `try/except: pass`
(lines 281-284): a non-blocking push that silently drops the new element when
the queue already holds `QUEUE_MAXSIZE` elements. -/
def putNowait (q : List Nat) (x : Nat) : List Nat :=
  if q.length < QUEUE_MAXSIZE then q ++ [x] else q

/-- State of a `KeywordSpotter` instance: whether `self.speech` is loaded
(`None` otherwise), the `_running` flag, the `_paused` flag, the event queue
contents, and `detected_keyword_index`. -/
structure KwsState where
  speechLoaded : Bool
  running : Bool
  paused : Bool
  queue : List Nat
  detectedKeywordIndex : Int
deriving DecidableEq, Repr

/-- Body of the `for i in range(length)` loop inside `KeywordSpotter._callback`
(lines 266-284) for one keyword index `i` with probability `p`: when
`i < len(thresholds)`, `data[i] > thresholds[i]` and the spotter is not paused,
record the index and push it onto the queue without blocking; otherwise the
state is unchanged (the debug print has no effect on state). -/
def callbackStep (thresholds : List ℚ) (st : KwsState) (i : Nat) (p : ℚ) : KwsState :=
  if h : i < thresholds.length then
    if thresholds[i] < p ∧ st.paused = false then
      { st with detectedKeywordIndex := (i : Int), queue := putNowait st.queue i }
    else st
  else st

/-- Method `KeywordSpotter._callback`: iterates `callbackStep` over the
probability vector supplied by the inference engine. -/
def kwsCallback (thresholds : List ℚ) (st : KwsState) (data : List ℚ) : KwsState :=
  data.enum.foldl (fun s ip => callbackStep thresholds s ip.1 ip.2) st

/-- Method `KeywordSpotter.pause` (lines 319-327): sets `_paused` and drains
every queued event. -/
def kwsPause (st : KwsState) : KwsState :=
  { st with paused := true, queue := [] }

/-- Method `KeywordSpotter.resume` (lines 329-331). -/
def kwsResume (st : KwsState) : KwsState :=
  { st with paused := false }

/-- Method `KeywordSpotter.start` (lines 304-310). -/
def kwsStart (st : KwsState) : KwsState :=
  { st with running := true }

/-- Method `KeywordSpotter.get_event` (lines 333-338): returns the head of the
queue, or -1 when the bounded wait times out on an empty queue. -/
def getEvent (q : List Nat) : Int × List Nat :=
  match q with
  | [] => (-1, [])
  | x :: rest => ((x : Int), rest)

/-- Atomic actions interleaving the ASR-thread callback with the main-thread
pause/resume calls. -/
inductive KwsAction where
  | callback (data : List ℚ)
  | pause
  | resume
deriving Repr

def kwsStep (thresholds : List ℚ) (st : KwsState) (a : KwsAction) : KwsState :=
  match a with
  | KwsAction.callback data => kwsCallback thresholds st data
  | KwsAction.pause => kwsPause st
  | KwsAction.resume => kwsResume st

def kwsRun (thresholds : List ℚ) (st : KwsState) (as : List KwsAction) : KwsState :=
  as.foldl (kwsStep thresholds) st

/-! Audio responder: class `AudioResponder`
    (`wondecho_voice_assistant_asr.py` lines 135-190 and
    `wondecho_voice_assistant.py` lines 125-161). -/

/-- One observable output action of the audio responder: playing a WAV asset
through the board speaker, or issuing a speak command to the actuator
peripheral. -/
inductive AudioAction where
  | playWav (path : String)
  | speakCmd (cmd phraseId : Nat)
deriving DecidableEq, Repr

def isSpeakAction : AudioAction → Bool
  | AudioAction.speakCmd _ _ => true
  | AudioAction.playWav _ => false

/-- Python `dict.get` over string keys, with the dictionary modelled as an
association list. -/
def dictGet (d : List (String × String)) (k : String) : Option String :=
  (d.find? (fun kv => kv.1 == k)).map (fun kv => kv.2)

/-- Python `dict.get` for the `category_phrase_ids` mapping. -/
def dictGetNat (d : List (String × Nat)) (k : String) : Option Nat :=
  (d.find? (fun kv => kv.1 == k)).map (fun kv => kv.2)

/-- Environment the audio responder runs in: the configured event and category
asset dictionaries, the set of paths for which `os.path.exists` is true,
whether playback of an existing file completes without raising (ASR version
catches playback exceptions), and whether `self.voice` is attached. -/
structure RespondEnv where
  events : List (String × String)
  categories : List (String × String)
  existingFiles : List String
  playbackOk : Bool
  voicePresent : Bool
deriving DecidableEq, Repr

/-- Method `AudioResponder._play_wav`, ASR version (lines 140-166): returns
`False` without creating a player when the path is empty or the file does not
exist; otherwise plays it and reports `True` unless playback raised. -/
def playWavAsr (env : RespondEnv) (path : String) : Bool × List AudioAction :=
  if path = "" ∨ env.existingFiles.contains path = false then (false, [])
  else (env.playbackOk, [AudioAction.playWav path])

/-- Method `AudioResponder._play_wav`, v1 version
(`wondecho_voice_assistant.py` lines 130-136): same guard, but the play call
has no exception handling and reports `True` whenever the file exists. -/
def playWavV1 (env : RespondEnv) (path : String) : Bool × List AudioAction :=
  if path = "" ∨ env.existingFiles.contains path = false then (false, [])
  else (true, [AudioAction.playWav path])

/-- Method `AudioResponder.respond`, ASR version (lines 168-172): plays the
configured event asset when the key maps to a truthy path; falls back to
`speak(ASR_CMDMAND, fallback_phrase_id)` only when a fallback id was passed,
nothing played, and a voice module is attached. -/
def respondAsr (env : RespondEnv) (eventKey : String) (fallbackPhraseId : Option Nat) :
    List AudioAction :=
  let wavPath := (dictGet env.events eventKey).getD ""
  let played := if wavPath = "" then (false, ([] : List AudioAction)) else playWavAsr env wavPath
  match fallbackPhraseId with
  | some pid =>
    if played.1 then played.2
    else if env.voicePresent then played.2 ++ [AudioAction.speakCmd ASR_CMDMAND pid]
    else played.2
  | none => played.2

/-- Method `AudioResponder.respond`, v1 version
(`wondecho_voice_assistant.py` lines 138-142): identical control flow with the
v1 `_play_wav`. -/
def respondV1 (env : RespondEnv) (eventKey : String) (fallbackPhraseId : Option Nat) :
    List AudioAction :=
  let wavPath := (dictGet env.events eventKey).getD ""
  let played := if wavPath = "" then (false, ([] : List AudioAction)) else playWavV1 env wavPath
  match fallbackPhraseId with
  | some pid =>
    if played.1 then played.2
    else if env.voicePresent then played.2 ++ [AudioAction.speakCmd ASR_CMDMAND pid]
    else played.2
  | none => played.2

/-- Method `AudioResponder.announce_category`, ASR version (lines 174-190):
fails when no asset is configured for the category or the file does not exist;
otherwise plays the asset and reports the playback result. The
`fallback_phrase_id` parameter is accepted but never used: this version never
issues an actuator speak command. -/
def announceCategoryAsr (env : RespondEnv) (category : String)
    (_fallbackPhraseId : Option Nat) : Bool × List AudioAction :=
  let wavPath := (dictGet env.categories category).getD ""
  if wavPath = "" then (false, [])
  else if env.existingFiles.contains wavPath = false then (false, [])
  else playWavAsr env wavPath

/-- Method `AudioResponder.announce_category`, v1 version
(`wondecho_voice_assistant.py` lines 144-161): plays the configured asset when
possible; otherwise, when a fallback phrase id was passed and a voice module is
attached, issues `speak(ASR_ANNOUNCER, fallback_phrase_id)` and reports that
this bus write succeeded (`busOk` is the outcome of the write; command type
0xFF is always accepted by `speak`); reports failure when neither applies. -/
def announceCategoryV1 (env : RespondEnv) (category : String)
    (fallbackPhraseId : Option Nat) (busOk : Bool) : Bool × List AudioAction :=
  let wavPath := (dictGet env.categories category).getD ""
  let played := if wavPath = "" then (false, ([] : List AudioAction)) else playWavV1 env wavPath
  if played.1 then (true, played.2)
  else
    match fallbackPhraseId with
    | some pid =>
      if env.voicePresent then (busOk, played.2 ++ [AudioAction.speakCmd ASR_ANNOUNCER pid])
      else (false, played.2)
    | none => (false, played.2)

/-! Capture-classify client: class `PhotoClassifier`
    (`wondecho_voice_assistant_asr.py` lines 195-224). -/

/-- Outcome of the HTTP round trip in `PhotoClassifier.classify`: either a
`requests.RequestException` (transport error, timeout, or non-2xx status via
`raise_for_status`) or a decoded JSON object modelled as an association
list. -/
inductive ServerOutcome where
  | transportError (msg : String)
  | ok (payload : List (String × String))
deriving DecidableEq, Repr

/-- Method `PhotoClassifier.classify` (lines 209-224): returns
`payload.get("category")` on success and `None` on any transport error; a
payload without a `category` field also yields `None`. -/
def classify (outcome : ServerOutcome) : Option String :=
  match outcome with
  | ServerOutcome.transportError _ => none
  | ServerOutcome.ok payload => dictGet payload "category"

/-! Trigger orchestrator: class `GarbageVoiceAssistant`
    (`wondecho_voice_assistant_asr.py` lines 341-416). -/

/-- The hardcoded `min_trigger_interval = 3.0` of `run()` (line 366). -/
def minTriggerInterval : ℚ := 3

/-- Method `GarbageVoiceAssistant._handle_classification` (lines 402-416):
a falsy category (server failure or empty string) only logs
`Classification failed - server error`; a truthy category is announced via
`announce_category(category)` (no fallback id is passed) and the success or
failure of that announcement is logged. -/
def handleClassificationAsr (env : RespondEnv) (category : Option String) :
    List AudioAction × List String :=
  match category with
  | none => ([], ["[Assistant] Classification failed - server error"])
  | some cat =>
    if cat = "" then ([], ["[Assistant] Classification failed - server error"])
    else
      let res := announceCategoryAsr env cat none
      if res.1 then (res.2, ["[Assistant] Result announced successfully"])
      else (res.2, ["[Assistant] Failed to announce result"])

/-- Orchestrator loop state: `last_trigger_time` together with the spotter
state shared with the ASR thread. -/
structure LoopState where
  lastTriggerTime : ℚ
  kws : KwsState
deriving DecidableEq, Repr

/-- External inputs consumed by one iteration of `GarbageVoiceAssistant.run`
(lines 369-397): the `get_event` result, the `time.time()` value read at the
debounce check, the outcome of `capture_to_file` (which has no exception
handling: a camera failure is an uncaught exception), the server outcome, the
`time.time()` value stored into `last_trigger_time` after handling, and the
audio environment. -/
structure IterEnv where
  eventIdx : Int
  now1 : ℚ
  captureResult : Except String String
  serverOutcome : ServerOutcome
  now2 : ℚ
  audioEnv : RespondEnv
deriving Repr

/-- One iteration of the main loop of `GarbageVoiceAssistant.run`
(lines 369-397). A negative `get_event` result or a debounced event leaves the
state unchanged. Otherwise the spotter is paused, the photo is captured (an
exception there propagates out of the loop, modelled as `Except.error`), the
classification is handled, `last_trigger_time` is set to the completion time,
and the spotter is resumed. -/
def runIter (st : LoopState) (env : IterEnv) :
    Except String (LoopState × List AudioAction × List String) :=
  if env.eventIdx < 0 then Except.ok (st, [], [])
  else if env.now1 - st.lastTriggerTime < minTriggerInterval then Except.ok (st, [], [])
  else
    let kws1 := kwsPause st.kws
    match env.captureResult with
    | Except.error e => Except.error e
    | Except.ok _snapshot =>
      let res := handleClassificationAsr env.audioEnv (classify env.serverOutcome)
      Except.ok ({ lastTriggerTime := env.now2, kws := kwsResume kws1 }, res.1, res.2)

/-- One detection event as seen by the consumer loop: `arrival` is the
`time.time()` read when the event is dequeued, `finish` the `time.time()`
stored into `last_trigger_time` after the cycle completes (only meaningful for
events that fire). -/
structure TriggerEvent where
  arrival : ℚ
  finish : ℚ
deriving DecidableEq, Repr

/-- Projection of one `run()` iteration onto the debounce state: an event
fires exactly when it is not discarded by
`current_time - last_trigger_time < min_trigger_interval`, and a firing event
replaces `last_trigger_time` with its completion time. -/
def processEvent (cooldown last : ℚ) (e : TriggerEvent) : Bool × ℚ :=
  if e.arrival - last < cooldown then (false, last)
  else (true, e.finish)

/-- The subsequence of events that start a capture cycle when the consumer
processes `es` in order starting from `last_trigger_time = last`. -/
def firedEvents (cooldown last : ℚ) (es : List TriggerEvent) : List TriggerEvent :=
  match es with
  | [] => []
  | e :: rest =>
    if e.arrival - last < cooldown then firedEvents cooldown last rest
    else e :: firedEvents cooldown e.finish rest

/-! Spotter construction and the ASR thread loop
    (`wondecho_voice_assistant_asr.py` lines 236-302). -/

/-- Constructor `KeywordSpotter.__init__` (lines 236-264): a missing model
file or a failing engine constructor is caught, logged, and leaves
`self.speech = None`; the constructor itself always returns a spotter
state. -/
def initKeywordSpotter (modelExists engineInitOk : Bool) : KwsState × List String :=
  if modelExists = false then
    ({ speechLoaded := false, running := false, paused := false, queue := [],
       detectedKeywordIndex := -1 },
     ["[ASR] Error: Model file not found"])
  else if engineInitOk then
    ({ speechLoaded := true, running := false, paused := false, queue := [],
       detectedKeywordIndex := -1 },
     ["[ASR] Initialized"])
  else
    ({ speechLoaded := false, running := false, paused := false, queue := [],
       detectedKeywordIndex := -1 },
     ["[ASR] Initialization failed"])

/-- Outcome of one `speech.run(1)` call inside the ASR thread loop. -/
inductive SpeechRunOutcome where
  | frames (n : Int)
  | raised (msg : String)
deriving DecidableEq, Repr

/-- One iteration of `KeywordSpotter._asr_thread_loop` (lines 286-302).
Returns (ran inference this iteration, loop continues). The loop exits only on
the `_running` flag or the shared exit signal; when the engine is absent the
iteration merely sleeps, and an exception from `speech.run` is caught so the
loop always continues. -/
def asrThreadIter (st : KwsState) (needExit : Bool) (_outcome : SpeechRunOutcome) :
    Bool × Bool :=
  if st.running = false ∨ needExit = true then (false, false)
  else if st.speechLoaded then (true, true)
  else (false, true)

/-! Concrete instances used by counterexamples and witnesses. -/

/-- A fresh `ASRModule` at the default address 0x34 with an empty trace. -/
def asrSt0 : ASRState :=
  { address := 0x34, send := [0, 0], trace := [] }

/-- Audio environment with no configured assets. -/
def emptyAudioEnv : RespondEnv :=
  { events := [], categories := [], existingFiles := [], playbackOk := true,
    voicePresent := true }

/-- The `category_phrase_ids` mapping of the claimed scenario: category "B" is
mapped to phrase id 2. -/
def phraseIdsB : List (String × Nat) :=
  [("B", 2)]

/-- Audio environment with an asset configured and present for category "A"
and nothing for category "B". -/
def assetAudioEnv : RespondEnv :=
  { events := [], categories := [("A", "/root/garbage_audio/recyclable.wav")],
    existingFiles := ["/root/garbage_audio/recyclable.wav"], playbackOk := true,
    voicePresent := true }

/-- A spotter state whose engine is loaded, running and not paused, with an
empty queue. -/
def kwsReady : KwsState :=
  { speechLoaded := true, running := true, paused := false, queue := [],
    detectedKeywordIndex := -1 }

/-- Orchestrator state at process start. -/
def loopSt0 : LoopState :=
  { lastTriggerTime := 0, kws := kwsReady }

/-- Iteration inputs where the event dequeue timed out. -/
def idleIterEnv : IterEnv :=
  { eventIdx := -1, now1 := 0, captureResult := Except.ok "/tmp/garbage_snapshot.jpg",
    serverOutcome := ServerOutcome.transportError "unused", now2 := 0,
    audioEnv := emptyAudioEnv }

/-- Iteration inputs for a trigger whose image capture raises. -/
def captureFailEnv : IterEnv :=
  { eventIdx := 0, now1 := 10, captureResult := Except.error "camera read failed",
    serverOutcome := ServerOutcome.transportError "unused", now2 := 11,
    audioEnv := emptyAudioEnv }

/-- Iteration inputs for a trigger whose image capture raises while saving. -/
def captureFailEnv2 : IterEnv :=
  { eventIdx := 0, now1 := 10, captureResult := Except.error "image save failed",
    serverOutcome := ServerOutcome.transportError "unused", now2 := 11,
    audioEnv := emptyAudioEnv }

/-- Iteration inputs for a trigger whose classification call times out. -/
def classifyFailEnv : IterEnv :=
  { eventIdx := 0, now1 := 10, captureResult := Except.ok "/tmp/garbage_snapshot.jpg",
    serverOutcome := ServerOutcome.transportError "timeout", now2 := 11,
    audioEnv := emptyAudioEnv }

/-! Helper lemmas. -/

theorem callbackStep_paused (th : List ℚ) (st : KwsState) (i : Nat) (p : ℚ)
    (h : st.paused = true) : callbackStep th st i p = st := by
  unfold callbackStep
  split
  · split
    · rename_i hcond
      rw [h] at hcond
      exact absurd hcond.2 (by simp)
    · rfl
  · rfl

theorem kwsCallback_paused (th : List ℚ) (st : KwsState) (data : List ℚ)
    (h : st.paused = true) : kwsCallback th st data = st := by
  unfold kwsCallback
  generalize data.enum = l
  induction l generalizing st with
  | nil => rfl
  | cons a l ih =>
    rw [List.foldl_cons, callbackStep_paused th st a.1 a.2 h]
    exact ih st h

theorem kwsRun_callbacks_paused (th : List ℚ) :
    ∀ (mids : List KwsAction) (st : KwsState),
      (∀ a ∈ mids, ∃ d, a = KwsAction.callback d) →
      st.paused = true → st.queue = [] →
      (kwsRun th st mids).paused = true ∧ (kwsRun th st mids).queue = [] := by
  intro mids
  induction mids with
  | nil => intro st _ h1 h2; exact ⟨h1, h2⟩
  | cons a rest ih =>
    intro st hmids h1 h2
    obtain ⟨d, rfl⟩ := hmids a (List.mem_cons_self a rest)
    have hstep : kwsStep th st (KwsAction.callback d) = st := by
      simp only [kwsStep]
      exact kwsCallback_paused th st d h1
    show (rest.foldl (kwsStep th) (kwsStep th st (KwsAction.callback d))).paused = true ∧
      (rest.foldl (kwsStep th) (kwsStep th st (KwsAction.callback d))).queue = []
    rw [hstep]
    exact ih st (fun b hb => hmids b (List.mem_cons_of_mem _ hb)) h1 h2

theorem kwsRun_append (th : List ℚ) (st : KwsState) (l l' : List KwsAction) :
    kwsRun th st (l ++ l') = kwsRun th (kwsRun th st l) l' := by
  simp [kwsRun, List.foldl_append]

theorem firedEvents_arrival_lb (c : ℚ) (hc : 0 ≤ c) :
    ∀ (es : List TriggerEvent) (last : ℚ),
      (∀ e ∈ es, e.arrival ≤ e.finish) →
      ∀ x ∈ firedEvents c last es, last + c ≤ x.arrival := by
  intro es
  induction es with
  | nil => intro last _ x hx; simp [firedEvents] at hx
  | cons e rest ih =>
    intro last hwf x hx
    unfold firedEvents at hx
    by_cases hd : e.arrival - last < c
    · rw [if_pos hd] at hx
      exact ih last (fun y hy => hwf y (List.mem_cons_of_mem _ hy)) x hx
    · rw [if_neg hd] at hx
      have hge : c ≤ e.arrival - last := not_lt.mp hd
      rcases List.mem_cons.mp hx with hx | hx
      · subst hx; linarith
      · have h1 := ih e.finish (fun y hy => hwf y (List.mem_cons_of_mem _ hy)) x hx
        have h2 : e.arrival ≤ e.finish := hwf e (List.mem_cons_self e rest)
        linarith

theorem firedEvents_pairwise (c : ℚ) (hc : 0 ≤ c) :
    ∀ (es : List TriggerEvent) (last : ℚ),
      (∀ e ∈ es, e.arrival ≤ e.finish) →
      (firedEvents c last es).Pairwise (fun a b => a.arrival + c ≤ b.arrival) := by
  intro es
  induction es with
  | nil => intro last _; simp [firedEvents]
  | cons e rest ih =>
    intro last hwf
    unfold firedEvents
    by_cases hd : e.arrival - last < c
    · rw [if_pos hd]
      exact ih last (fun y hy => hwf y (List.mem_cons_of_mem _ hy))
    · rw [if_neg hd]
      refine List.pairwise_cons.mpr ⟨?_, ih e.finish (fun y hy => hwf y (List.mem_cons_of_mem _ hy))⟩
      intro x hx
      have h1 := firedEvents_arrival_lb c hc rest e.finish
        (fun y hy => hwf y (List.mem_cons_of_mem _ hy)) x hx
      have h2 : e.arrival ≤ e.finish := hwf e (List.mem_cons_self e rest)
      linarith

theorem respondAsr_none_eq (env : RespondEnv) (k : String) :
    respondAsr env k none =
      (if (dictGet env.events k).getD "" = "" then (false, ([] : List AudioAction))
       else playWavAsr env ((dictGet env.events k).getD "")).2 := rfl

theorem respondV1_none_eq (env : RespondEnv) (k : String) :
    respondV1 env k none =
      (if (dictGet env.events k).getD "" = "" then (false, ([] : List AudioAction))
       else playWavV1 env ((dictGet env.events k).getD "")).2 := rfl

/-! Claim theorems. -/

/-- C1: for every phrase id in 0-255 and command type 0x00 or 0xFF,
`ASRModule.speak` issues exactly one two-byte block write to register 0x6E
whose payload is `[commandType, phraseId]` in that order, after filling the
send buffer with exactly those bytes. -/
theorem C1_speak_serializes_command_then_phrase (st : ASRState) (cmd pid : Nat)
    (busOk : Bool) (hcmd : cmd = ASR_CMDMAND ∨ cmd = ASR_ANNOUNCER) (_hpid : pid ≤ 255) :
    (speak st cmd pid busOk).2.trace
      = st.trace ++ [BusOp.writeBlock st.address ASR_SPEAK_ADDR [cmd, pid]] ∧
    (speak st cmd pid busOk).2.send = [cmd, pid] := by
  unfold speak asrWriteBlock
  rw [if_pos hcmd]
  exact ⟨rfl, rfl⟩

/-- C1 witness: `speak(0x00, 3)` on a fresh module serializes to the single
wire write `[0x00, 0x03]` at register 0x6E, and that byte sequence is not the
swapped `[0x03, 0x00]`. -/
theorem C1_speak_serializes_command_then_phrase_witness :
    (speak asrSt0 ASR_CMDMAND 3 true).2.trace
      = [BusOp.writeBlock 0x34 ASR_SPEAK_ADDR [0x00, 0x03]] ∧
    ([0x00, 0x03] : List Nat) ≠ [0x03, 0x00] := by
  have h := C1_speak_serializes_command_then_phrase asrSt0 ASR_CMDMAND 3 true
    (Or.inl rfl) (by decide)
  exact ⟨by simpa [asrSt0] using h.1, by decide⟩

/-- C10: for every command type other than 0x00 and 0xFF, `ASRModule.speak`
returns `False` and leaves the module state entirely unchanged: no bus
operation is issued and no byte is placed in the send buffer. -/
theorem C10_speak_rejects_unknown_command (st : ASRState) (cmd pid : Nat) (busOk : Bool)
    (h0 : cmd ≠ ASR_CMDMAND) (h1 : cmd ≠ ASR_ANNOUNCER) :
    speak st cmd pid busOk = (false, st) := by
  unfold speak
  rw [if_neg]
  intro h
  rcases h with h | h
  · exact h0 h
  · exact h1 h

/-- C10 witness: `speak(0x01, 7)` on a fresh module returns `False` with the
trace and send buffer untouched. -/
theorem C10_speak_rejects_unknown_command_witness :
    speak asrSt0 0x01 7 true = (false, asrSt0) := by
  exact C10_speak_rejects_unknown_command asrSt0 0x01 7 true (by decide) (by decide)

/-- C3: when a keyword probability exceeds its threshold and the producer is
not paused, the callback pushes the event with the non-blocking `put_nowait`
semantics: on a full channel the new event is dropped and the queued events
are unchanged, on a non-full channel the event is appended. -/
theorem C3_callback_nonblocking_push (th : List ℚ) (st : KwsState) (i : Nat) (p : ℚ)
    (hi : i < th.length) (hp : th[i] < p) (hpaused : st.paused = false) :
    (callbackStep th st i p).queue = putNowait st.queue i ∧
    (QUEUE_MAXSIZE ≤ st.queue.length → (callbackStep th st i p).queue = st.queue) ∧
    (st.queue.length < QUEUE_MAXSIZE → (callbackStep th st i p).queue = st.queue ++ [i]) := by
  have hq : (callbackStep th st i p).queue = putNowait st.queue i := by
    unfold callbackStep
    rw [dif_pos hi, if_pos ⟨hp, hpaused⟩]
  refine ⟨hq, ?_, ?_⟩
  · intro hfull
    rw [hq]
    unfold putNowait
    rw [if_neg (by omega)]
  · intro hlt
    rw [hq]
    unfold putNowait
    rw [if_pos hlt]

/-- C3 witness: with threshold 0.2 and probability 0.5, a push onto a channel
already holding its 10-event capacity leaves the channel unchanged, and the
same push onto an empty channel appends the event. -/
theorem C3_callback_nonblocking_push_witness :
    (callbackStep [1/5] ⟨true, true, false, [0,1,2,3,4,5,6,7,8,9], -1⟩ 0 (1/2)).queue
      = [0,1,2,3,4,5,6,7,8,9] ∧
    (callbackStep [1/5] ⟨true, true, false, [], -1⟩ 0 (1/2)).queue = [0] := by
  constructor
  · exact (C3_callback_nonblocking_push [1/5] ⟨true, true, false, [0,1,2,3,4,5,6,7,8,9], -1⟩
      0 (1/2) (by decide) (by simp only [List.getElem_cons_zero]; norm_num) rfl).2.1 (by decide)
  · exact (C3_callback_nonblocking_push [1/5] ⟨true, true, false, [], -1⟩
      0 (1/2) (by decide) (by simp only [List.getElem_cons_zero]; norm_num) rfl).2.2 (by decide)

/-- C6: `respond(eventKey)` (no fallback id passed, as the spec interface has
none) never issues an actuator speak command in either version; it plays the
configured event asset when the key maps to a nonempty, existing file and does
nothing when no asset is configured. -/
theorem C6_respond_plays_asset_no_actuator (env : RespondEnv) (eventKey : String) :
    (∀ a ∈ respondAsr env eventKey none, isSpeakAction a = false) ∧
    (∀ a ∈ respondV1 env eventKey none, isSpeakAction a = false) ∧
    (dictGet env.events eventKey = none →
      respondAsr env eventKey none = [] ∧ respondV1 env eventKey none = []) ∧
    (∀ path, dictGet env.events eventKey = some path → path ≠ "" →
      env.existingFiles.contains path = true →
      respondAsr env eventKey none = [AudioAction.playWav path] ∧
      respondV1 env eventKey none = [AudioAction.playWav path]) := by
  refine ⟨?_, ?_, ?_, ?_⟩
  · intro a ha
    rw [respondAsr_none_eq] at ha
    unfold playWavAsr at ha
    split_ifs at ha <;> simp_all [isSpeakAction]
  · intro a ha
    rw [respondV1_none_eq] at ha
    unfold playWavV1 at ha
    split_ifs at ha <;> simp_all [isSpeakAction]
  · intro h
    constructor
    · rw [respondAsr_none_eq, h]
      simp
    · rw [respondV1_none_eq, h]
      simp
  · intro path hp hne hex
    have hmem : path ∈ env.existingFiles := by simpa using hex
    constructor
    · rw [respondAsr_none_eq, hp]
      simp [playWavAsr, hne, hmem]
    · rw [respondV1_none_eq, hp]
      simp [playWavV1, hne, hmem]

/-- C6 witness: with an event asset configured and present for key "k", the
one-argument respond plays exactly that asset; with no asset configured it
does nothing; in both versions and both cases no actuator command appears. -/
theorem C6_respond_plays_asset_no_actuator_witness :
    respondAsr ⟨[("k", "/root/garbage_audio/ack.wav")], [], ["/root/garbage_audio/ack.wav"],
        true, true⟩ "k" none = [AudioAction.playWav "/root/garbage_audio/ack.wav"] ∧
    respondAsr emptyAudioEnv "k" none = [] := by
  constructor
  · exact ((C6_respond_plays_asset_no_actuator
      ⟨[("k", "/root/garbage_audio/ack.wav")], [], ["/root/garbage_audio/ack.wav"], true, true⟩
      "k").2.2.2 "/root/garbage_audio/ack.wav" rfl (by decide) rfl).1
  · exact ((C6_respond_plays_asset_no_actuator emptyAudioEnv "k").2.2.1 rfl).1

/-- C2: the consumer starts a capture cycle exactly when the time elapsed
since the last completed trigger is at least the cooldown interval; a
debounced event leaves the loop state unchanged with no actions; and any two
events that both fire are at least one cooldown interval apart in arrival
time, so at most one capture cycle occurs per cooldown window. -/
theorem C2_cooldown_debounce (c last : ℚ) (hc : 0 ≤ c) (es : List TriggerEvent)
    (hwf : ∀ e ∈ es, e.arrival ≤ e.finish) :
    (firedEvents c last es).Pairwise (fun a b => a.arrival + c ≤ b.arrival) ∧
    (∀ e, (processEvent c last e).1 = true ↔ last + c ≤ e.arrival) ∧
    (∀ st env, 0 ≤ env.eventIdx →
      env.now1 - st.lastTriggerTime < minTriggerInterval →
      runIter st env = Except.ok (st, [], [])) := by
  refine ⟨firedEvents_pairwise c hc es last hwf, ?_, ?_⟩
  · intro e
    unfold processEvent
    by_cases h : e.arrival - last < c
    · rw [if_pos h]
      constructor
      · intro hfalse
        simp at hfalse
      · intro hle
        exfalso
        linarith
    · rw [if_neg h]
      have hge := not_lt.mp h
      constructor
      · intro _
        linarith
      · intro _
        rfl
  · intro st env hidx hdeb
    unfold runIter
    rw [if_neg (not_lt.mpr hidx), if_pos hdeb]

/-- C2 witness: two detection events 0.2 seconds apart under the 3-second
cooldown, starting from `last_trigger_time = 0`: only the first starts a
cycle, and the fired events are pairwise at least 3 seconds apart. -/
theorem C2_cooldown_debounce_witness :
    firedEvents 3 0 [⟨10, 10⟩, ⟨51/5, 51/5⟩] = [⟨10, 10⟩] ∧
    (firedEvents 3 0 [⟨10, 10⟩, ⟨51/5, 51/5⟩]).Pairwise
      (fun a b => a.arrival + 3 ≤ b.arrival) ∧
    (processEvent 3 0 ⟨10, 10⟩).1 = true := by
  have hwf : ∀ e ∈ [(⟨10, 10⟩ : TriggerEvent), ⟨51/5, 51/5⟩], e.arrival ≤ e.finish := by
    intro e he
    simp only [List.mem_cons, List.not_mem_nil, or_false] at he
    rcases he with rfl | rfl
    · exact le_rfl
    · exact le_rfl
  have h := C2_cooldown_debounce 3 0 (by norm_num) [⟨10, 10⟩, ⟨51/5, 51/5⟩] hwf
  refine ⟨?_, h.1, (h.2.1 ⟨10, 10⟩).mpr (by norm_num)⟩
  show firedEvents 3 0 [⟨10, 10⟩, ⟨51/5, 51/5⟩] = [⟨10, 10⟩]
  norm_num [firedEvents]

/-- C9: for any interleaving of whole callback invocations with a
pause()/resume() pair, the channel is empty when pause() returns, stays empty
across every threshold crossing that occurs while paused, and is still empty
after resume(), so the orchestrator (whose `get_event` then yields -1, leaving
its state untouched) is unaffected by stale events from the pause window. -/
theorem C9_pause_resume_discards_stale (th : List ℚ) (st : KwsState)
    (pre mids : List KwsAction)
    (hmids : ∀ a ∈ mids, ∃ d, a = KwsAction.callback d) :
    (kwsRun th st (pre ++ KwsAction.pause :: mids)).queue = [] ∧
    (kwsRun th st (pre ++ KwsAction.pause :: (mids ++ [KwsAction.resume]))).queue = [] ∧
    (getEvent (kwsRun th st (pre ++ KwsAction.pause :: (mids ++ [KwsAction.resume]))).queue).1
      = -1 ∧
    (∀ lst env, env.eventIdx < 0 → runIter lst env = Except.ok (lst, [], [])) := by
  have hsplit : ∀ (ms : List KwsAction),
      kwsRun th st (pre ++ KwsAction.pause :: ms)
        = kwsRun th (kwsPause (kwsRun th st pre)) ms := by
    intro ms
    rw [show pre ++ KwsAction.pause :: ms = (pre ++ [KwsAction.pause]) ++ ms by simp,
      kwsRun_append, kwsRun_append]
    rfl
  have hmain := kwsRun_callbacks_paused th mids (kwsPause (kwsRun th st pre)) hmids rfl rfl
  have h1 : (kwsRun th st (pre ++ KwsAction.pause :: mids)).queue = [] := by
    rw [hsplit]; exact hmain.2
  have h2 : (kwsRun th st (pre ++ KwsAction.pause :: (mids ++ [KwsAction.resume]))).queue = [] := by
    rw [hsplit, kwsRun_append]
    show (kwsResume (kwsRun th (kwsPause (kwsRun th st pre)) mids)).queue = []
    simpa [kwsResume] using hmain.2
  refine ⟨h1, h2, ?_, ?_⟩
  · rw [h2]; rfl
  · intro lst env h
    unfold runIter
    rw [if_pos h]

/-- C9 witness: a crossing before pause, a crossing during the pause window,
then resume: the channel ends empty. -/
theorem C9_pause_resume_discards_stale_witness :
    (kwsRun [1/5] kwsReady
      ([KwsAction.callback [1/2]] ++ KwsAction.pause ::
        ([KwsAction.callback [3/4]] ++ [KwsAction.resume]))).queue = [] := by
  refine (C9_pause_resume_discards_stale [1/5] kwsReady [KwsAction.callback [1/2]]
    [KwsAction.callback [3/4]] ?_).2.1
  intro a ha
  simp only [List.mem_singleton] at ha
  exact ⟨[3/4], ha⟩

/-- C4 counterexample: when the classification call times out, the ASR
version's `_handle_classification` produces zero announcement actions — not
the one audible error-path announcement the claim requires — and only logs
the failure. -/
theorem C4_classification_failure_counterexample :
    (handleClassificationAsr emptyAudioEnv
      (classify (ServerOutcome.transportError "timeout"))).1 = [] ∧
    (handleClassificationAsr emptyAudioEnv
      (classify (ServerOutcome.transportError "timeout"))).1.length ≠ 1 ∧
    (handleClassificationAsr emptyAudioEnv
      (classify (ServerOutcome.transportError "timeout"))).2
      = ["[Assistant] Classification failed - server error"] := by
  exact ⟨rfl, by decide, rfl⟩

/-- C4 amended: whenever the classification call fails after a successful
capture, the trigger cycle produces no announcement at all (neither audio
playback nor an actuator call); it logs exactly the failure message and still
completes the cycle, updating the trigger time and resuming the spotter. -/
theorem C4_classification_failure_logged_silent (st : LoopState) (env : IterEnv)
    (path : String) (hidx : 0 ≤ env.eventIdx)
    (hcool : minTriggerInterval ≤ env.now1 - st.lastTriggerTime)
    (hcap : env.captureResult = Except.ok path)
    (hfail : classify env.serverOutcome = none) :
    runIter st env = Except.ok
      ({ lastTriggerTime := env.now2, kws := kwsResume (kwsPause st.kws) },
       [], ["[Assistant] Classification failed - server error"]) := by
  unfold runIter
  rw [if_neg (not_lt.mpr hidx), if_neg (not_lt.mpr hcool), hcap, hfail]
  rfl

/-- C4 amended witness: a concrete trigger whose classification times out
completes the cycle with no announcement and the failure log. -/
theorem C4_classification_failure_logged_silent_witness :
    runIter loopSt0 classifyFailEnv = Except.ok
      ({ lastTriggerTime := 11, kws := kwsReady },
       [], ["[Assistant] Classification failed - server error"]) := by
  exact C4_classification_failure_logged_silent loopSt0 classifyFailEnv
    "/tmp/garbage_snapshot.jpg" (by decide)
    (by norm_num [classifyFailEnv, loopSt0, minTriggerInterval]) rfl rfl

/-- C5 counterexample: in the ASR version, for category "B" with no
configured asset but mapped phrase id 2, `announce_category` issues zero
actuator speak commands (even when the mapped id is passed as fallback) and
reports failure, contradicting the claimed single `speak(0xFF, 2)` call. -/
theorem C5_announce_counterexample :
    dictGetNat phraseIdsB "B" = some 2 ∧
    dictGet emptyAudioEnv.categories "B" = none ∧
    announceCategoryAsr emptyAudioEnv "B" (some 2) = (false, []) ∧
    (announceCategoryAsr emptyAudioEnv "B" (some 2)).2.count
      (AudioAction.speakCmd ASR_ANNOUNCER 2) = 0 := by
  exact ⟨rfl, rfl, rfl, rfl⟩

/-- C5 amended: the ASR version's `announce_category` never calls the
actuator: it plays the configured asset and reports the playback result, and
reports failure with no action when no asset is configured. The v1 version
satisfies the original three cases: a configured existing asset is played
with success and no actuator call; with no asset but a fallback phrase id it
issues exactly one `speak(0xFF, pid)` whose bus result it reports; with
neither it reports failure and performs no playback. -/
theorem C5_announce_category_cases (env : RespondEnv) (cat : String) (fb : Option Nat)
    (pid : Nat) (busOk : Bool) :
    (∀ a ∈ (announceCategoryAsr env cat fb).2, isSpeakAction a = false) ∧
    (dictGet env.categories cat = none → announceCategoryAsr env cat fb = (false, [])) ∧
    (∀ path, dictGet env.categories cat = some path → path ≠ "" →
      env.existingFiles.contains path = true →
      announceCategoryAsr env cat fb = (env.playbackOk, [AudioAction.playWav path]) ∧
      announceCategoryV1 env cat fb busOk = (true, [AudioAction.playWav path])) ∧
    (dictGet env.categories cat = none → env.voicePresent = true →
      announceCategoryV1 env cat (some pid) busOk
        = (busOk, [AudioAction.speakCmd ASR_ANNOUNCER pid])) ∧
    (dictGet env.categories cat = none →
      announceCategoryV1 env cat none busOk = (false, [])) := by
  refine ⟨?_, ?_, ?_, ?_, ?_⟩
  · intro a ha
    simp only [announceCategoryAsr, playWavAsr] at ha
    split_ifs at ha <;> simp_all [isSpeakAction]
  · intro h
    simp [announceCategoryAsr, h]
  · intro path hp hne hex
    have hmem : path ∈ env.existingFiles := by simpa using hex
    constructor
    · simp [announceCategoryAsr, playWavAsr, hp, hne, hmem]
    · simp [announceCategoryV1, playWavV1, hp, hne, hmem]
  · intro h hv
    simp [announceCategoryV1, playWavV1, h, hv]
  · intro h
    simp [announceCategoryV1, playWavV1, h]

/-- C5 amended witness: category "A" with a configured, existing asset is
played by both versions with no actuator call; category "B" with no asset and
fallback phrase id 2 makes the v1 version issue exactly one
`speak(0xFF, 2)`. -/
theorem C5_announce_category_cases_witness :
    announceCategoryAsr assetAudioEnv "A" none
      = (true, [AudioAction.playWav "/root/garbage_audio/recyclable.wav"]) ∧
    announceCategoryV1 assetAudioEnv "B" (some 2) true
      = (true, [AudioAction.speakCmd ASR_ANNOUNCER 2]) := by
  constructor
  · exact ((C5_announce_category_cases assetAudioEnv "A" none 2 true).2.2.1
      "/root/garbage_audio/recyclable.wav" rfl (by decide) rfl).1
  · exact (C5_announce_category_cases assetAudioEnv "B" none 2 true).2.2.2.1 rfl rfl

/-- C7 counterexample: with the model file missing, the spotter constructor
only logs the error and returns with no engine; the ASR thread loop still
continues each iteration, and the orchestrator loop still runs — the pipeline
proceeds, so initialization failure is not fatal and is not reported to the
caller. -/
theorem C7_init_failure_counterexample :
    (initKeywordSpotter false true).1.speechLoaded = false ∧
    (initKeywordSpotter false true).2 = ["[ASR] Error: Model file not found"] ∧
    (asrThreadIter (kwsStart (initKeywordSpotter false true).1) false
      (SpeechRunOutcome.frames 0)).2 = true ∧
    runIter { lastTriggerTime := 0, kws := kwsStart (initKeywordSpotter false true).1 }
      idleIterEnv
      = Except.ok ({ lastTriggerTime := 0, kws := kwsStart (initKeywordSpotter false true).1 }, [], []) := by
  exact ⟨rfl, rfl, rfl, rfl⟩

/-- C7 amended: a failed engine initialization (missing model artifact or a
raising constructor) is caught and logged, leaving the spotter without an
engine so that the detection thread idles without running inference while the
rest of the pipeline keeps running; a single inference step error is caught
and the thread loop continues exactly as on a successful step. -/
theorem C7_init_failure_nonfatal (initOk : Bool) (st : KwsState) (msg : String) (n : Int)
    (hrun : st.running = true) :
    (initKeywordSpotter false initOk).1.speechLoaded = false ∧
    (initKeywordSpotter false initOk).2 = ["[ASR] Error: Model file not found"] ∧
    (initKeywordSpotter true false).1.speechLoaded = false ∧
    (asrThreadIter st false (SpeechRunOutcome.raised msg)).2 = true ∧
    asrThreadIter st false (SpeechRunOutcome.raised msg)
      = asrThreadIter st false (SpeechRunOutcome.frames n) ∧
    (st.speechLoaded = false → (asrThreadIter st false (SpeechRunOutcome.frames n)).1 = false) := by
  refine ⟨rfl, rfl, rfl, ?_, rfl, ?_⟩
  · unfold asrThreadIter
    rw [hrun, if_neg (by simp)]
    split
    · rfl
    · rfl
  · intro h
    unfold asrThreadIter
    rw [hrun, h, if_neg (by simp)]
    rfl

/-- C7 amended witness: a running spotter whose engine failed to load
continues its thread loop without performing inference. -/
theorem C7_init_failure_nonfatal_witness :
    (asrThreadIter ⟨false, true, false, [], -1⟩ false (SpeechRunOutcome.raised "boom")).2
      = true ∧
    (asrThreadIter ⟨false, true, false, [], -1⟩ false (SpeechRunOutcome.frames 0)).1
      = false := by
  have h := C7_init_failure_nonfatal true ⟨false, true, false, [], -1⟩ "boom" 0 rfl
  exact ⟨h.2.2.2.1, h.2.2.2.2.2 rfl⟩

/-- C8 counterexample: a trigger whose image capture raises makes `run()`
return the exception instead of transitioning back to Idle — the consumer
loop terminates rather than keeping the pipeline running. -/
theorem C8_capture_failure_counterexample :
    runIter loopSt0 captureFailEnv = Except.error "camera read failed" ∧
    (runIter loopSt0 captureFailEnv).isOk = false := by
  have h : runIter loopSt0 captureFailEnv = Except.error "camera read failed" := by
    unfold runIter
    rw [if_neg (by decide), if_neg (by norm_num [captureFailEnv, loopSt0, minTriggerInterval])]
    rfl
  rw [h]
  exact ⟨rfl, rfl⟩

/-- C8 amended: an image-capture failure during a trigger cycle propagates as
an uncaught exception out of the orchestrator loop: the cycle does not return
to Idle with an error report, and the consumer loop terminates with that
exception. -/
theorem C8_capture_failure_terminates_loop (st : LoopState) (env : IterEnv) (e : String)
    (hidx : 0 ≤ env.eventIdx)
    (hcool : minTriggerInterval ≤ env.now1 - st.lastTriggerTime)
    (hcap : env.captureResult = Except.error e) :
    runIter st env = Except.error e := by
  unfold runIter
  rw [if_neg (not_lt.mpr hidx), if_neg (not_lt.mpr hcool), hcap]

/-- C8 amended witness: a concrete capture failure terminates the loop with
the capture exception. -/
theorem C8_capture_failure_terminates_loop_witness :
    runIter loopSt0 captureFailEnv2 = Except.error "image save failed" := by
  exact C8_capture_failure_terminates_loop loopSt0 captureFailEnv2 "image save failed"
    (by decide) (by norm_num [captureFailEnv2, loopSt0, minTriggerInterval]) rfl

end Wondecho
